import Mathlib

/-!
# Verification of the `python-dingz` device client (`dingz/dingz.py`)

A shallow embedding of the Dingz HTTP client class.  The class keeps a
cached copy of the last successful responses and exposes accessor
properties over that cache.  HTTP transport is modelled as an oracle
`Http : Request → Except Unit Json`; each method of the class becomes a
function from the client state (and the oracle) to the updated state,
the list of HTTP requests it issued (in issue order, one entry per
completed `make_call`), and an `Except` result.
-/

set_option autoImplicit false

namespace Dingz

/-- A JSON value, as produced by the device and parsed by the client. -/
inductive Json where
  | null
  | bool (b : Bool)
  | num (q : ℚ)
  | str (s : String)
  | arr (xs : List Json)
  | obj (fields : List (String × Json))

/-- Python subscript `response[k]` on a parsed JSON body: a lookup in an
object; on a non-object or a missing key Python raises (TypeError /
KeyError), modelled by `none`. -/
def Json.get? (j : Json) (k : String) : Option Json :=
  match j with
  | .obj fields => fields.lookup k
  | _ => none

/-- Python truthiness `bool(v)` of a parsed JSON value: `None`, `False`,
`0`, `""`, `[]`, `{}` are falsy, everything else truthy. -/
def Json.truthy (j : Json) : Bool :=
  match j with
  | .null => false
  | .bool b => b
  | .num q => decide (q ≠ 0)
  | .str s => decide (s ≠ "")
  | .arr xs => !xs.isEmpty
  | .obj fields => !fields.isEmpty

/-- Python `==` between a parsed JSON value and a string literal: true
exactly when the value is that string. -/
def Json.eqStr (j : Json) (s : String) : Bool :=
  match j with
  | .str t => t == s
  | _ => false

/-- Modelled from the spec: standard-library URL values (the source uses
the external `yarl` library, out of scope per spec §1): scheme, host and
the path split at `/` into segments; a trailing empty segment encodes a
trailing slash. -/
structure Url where
  scheme : String
  host : String
  path : List String
deriving DecidableEq, Repr

/-- Modelled from the spec: `yarl.URL.build(scheme=..., host=...)`, a URL
with the root path. -/
def Url.build (scheme host : String) : Url :=
  { scheme := scheme, host := host, path := [""] }

/-- Split a character list at `/` into path segments (`cur` is the
reversed current segment). -/
def splitSegsAux : List Char → List Char → List String
  | [], cur => [String.mk cur.reverse]
  | c :: rest, cur =>
    if c = '/' then String.mk cur.reverse :: splitSegsAux rest []
    else splitSegsAux rest (c :: cur)

/-- Split a string at `/` into path segments (the semantics of splitting
on the separator, e.g. `"api/v1/"` gives `["api", "v1", ""]`). -/
def splitSegs (s : String) : List String := splitSegsAux s.data []

/-- Rejoin path segments with `/`. -/
def joinSegs : List String → String
  | [] => ""
  | [x] => x
  | x :: xs => x ++ "/" ++ joinSegs xs

/-- Modelled from the spec: relative-reference URL resolution
(`URL.join`), spec §4.1: "the relative path replaces the base's trailing
path component per standard URL-resolution rules", and a leading-slash
reference replaces the whole path; not naive string concatenation.
(The endpoint constants contain no `.`/`..` segments, so dot-segment
removal is omitted.) -/
def Url.join (base : Url) (rel : String) : Url :=
  match rel.data with
  | [] => base
  | '/' :: rest => { base with path := splitSegsAux rest [] }
  | _ => { base with path := base.path.dropLast ++ splitSegs rel }

/-- Render a URL as a string, `scheme://host/seg0/seg1/...`. -/
def Url.toStr (u : Url) : String :=
  u.scheme ++ "://" ++ u.host ++ "/" ++ joinSegs u.path

/-- Modelled from the spec: the endpoint path constants of the
repository's constants module (not under `src/`); per spec §6 the exact
literal strings are "an implementation constant set, not semantically
meaningful beyond uniqueness", under the fixed API path prefix. -/
def API : String := "api/v1/"

/-- Modelled from the spec: puck status endpoint path. -/
def PUCK : String := "puck"

/-- Modelled from the spec: device info endpoint path. -/
def DEVICE_INFO : String := "device"

/-- Modelled from the spec: settings endpoint path. -/
def SETTINGS : String := "settings"

/-- Modelled from the spec: motion-sensor (PIR) config endpoint path. -/
def PIR_CONFIGURATION : String := "pir_config"

/-- Modelled from the spec: thermostat config endpoint path. -/
def THERMOSTAT_CONFIGURATION : String := "thermostat_config"

/-- Modelled from the spec: input config endpoint path. -/
def INPUT_CONFIGURATION : String := "input_config"

/-- Modelled from the spec: button actions endpoint path. -/
def BUTTON_ACTIONS : String := "action"

/-- Modelled from the spec: temperature endpoint path. -/
def TEMPERATURE : String := "temperature"

/-- Modelled from the spec: light sensor endpoint path. -/
def LIGHT : String := "light"

/-- Modelled from the spec: front LED status endpoint path. -/
def FRONT_LED_GET : String := "led/get"

/-- Modelled from the spec: front LED set endpoint path. -/
def FRONT_LED_SET : String := "led/set"

/-- An HTTP session resource (`aiohttp.ClientSession`): only its
open/closed status matters to the client's contract. -/
structure Session where
  closed : Bool
deriving DecidableEq, Repr

/-- Session release, `ClientSession.close()`: idempotent at the session level (per the
HTTP library's documented behaviour, spec §4.1 "releases it exactly
once").  Returns the session and whether an actual release (open →
closed transition) happened on this call. -/
def Session.closeS (s : Session) : Session × Bool :=
  ({ closed := true }, !s.closed)

/-- One HTTP request as issued through `make_call`: method, target URL
and the optional request body (the `data=` dict, form-encoded). -/
structure Request where
  method : String
  url : Url
  data : Option (List (String × String))
deriving DecidableEq

/-- The HTTP transport oracle: what the device answers (or a transport
failure, `.error ()`) for each request. -/
def Http : Type := Request → Except Unit Json

/-- The error kinds a client method can raise: transport/HTTP failure
from `make_call`, a missing key (`KeyError`) or a subscript/rounding on
an unsuitable value (`TypeError`). -/
inductive DErr where
  | transport
  | keyError
  | typeError
deriving DecidableEq, Repr

/-- The state of a `Dingz` instance: the fields set in `__init__`
(`dingz.py` lines 29–42). `_catch_all` is a Python dict, modelled as an
insertion-ordered association list. -/
structure State where
  _close_session : Bool
  _host : String
  _session : Option Session
  _device_details : Option Json
  _catch_all : List (String × Json)
  _button_action : Option Json
  _temperature : Option Json
  _intensity : Option Json
  _day : Option Json
  _night : Option Json
  _hour_of_day : Option Json
  uri : Url

/-- Constructor `Dingz.__init__(host, session=None)` (`dingz.py` lines 29–42). -/
def init (host : String) (session : Option Session) : State :=
  { _close_session := false
    _host := host
    _session := session
    _device_details := none
    _catch_all := []
    _button_action := none
    _temperature := none
    _intensity := none
    _day := none
    _night := none
    _hour_of_day := none
    uri := (Url.build "http" host).join API }

/-- Python dict assignment `d[k] = v`: overwrite in place if the key is
present (keeping its position), otherwise append at the end. -/
def dictInsert (d : List (String × Json)) (k : String) (v : Json) :
    List (String × Json) :=
  if (d.lookup k).isSome then
    d.map (fun p => if p.1 = k then (k, v) else p)
  else d ++ [(k, v)]

/-- Modelled from the spec: session acquisition inside the shared call
helper (spec §4.1: "defers creation until first use ... and records
ownership") — create a fresh open session and set `_close_session` when
none exists yet, otherwise leave the state unchanged. -/
def mkSess (s : State) : State :=
  if s._session.isNone then
    { s with _session := some { closed := false }, _close_session := true }
  else s

/-- Modelled from the spec: the shared call helper `make_call` (in the
package module, not under `src/`); per spec §4.1/§2 it performs one
request over the managed session — acquiring the session first — raises
a single transport-failure error kind on failure, returns the parsed
JSON body on success, with no retry. -/
def make_call (t : Http) (s : State) (method : String) (url : Url)
    (data : Option (List (String × String))) :
    State × Request × Except DErr Json :=
  let s1 := mkSess s
  let req : Request := { method := method, url := url, data := data }
  match t req with
  | .ok j => (s1, req, .ok j)
  | .error _ => (s1, req, .error .transport)

/-- Method `Dingz.get_device_info` (`dingz.py` lines 44–48): one GET on the
device-info endpoint; on success stores the whole body in
`_device_details`. -/
def get_device_info (t : Http) (s : State) :
    State × List Request × Except DErr Unit :=
  let url := s.uri.join DEVICE_INFO
  let (s1, req, r) := make_call t s "GET" url none
  match r with
  | .error e => (s1, [req], .error e)
  | .ok resp => ({ s1 with _device_details := some resp }, [req], .ok ())

/-- The seven endpoints of `get_info`, in the order the source lists
them (`dingz.py` lines 52–60). -/
def infoEndpoints : List String :=
  [PUCK, DEVICE_INFO, SETTINGS, PIR_CONFIGURATION, THERMOSTAT_CONFIGURATION,
   INPUT_CONFIGURATION, BUTTON_ACTIONS]

/-- The loop body of `Dingz.get_info` (`dingz.py` lines 50–62): for each
endpoint in order, one GET whose response is assigned into the
`_catch_all` dict under the endpoint key; a failed call raises out of
the loop, so later endpoints are not requested. -/
def get_info_loop (t : Http) : List String → State →
    State × List Request × Except DErr Unit
  | [], s => (s, [], .ok ())
  | e :: es, s =>
    let url := s.uri.join e
    let (s1, req, r) := make_call t s "GET" url none
    match r with
    | .error err => (s1, [req], .error err)
    | .ok resp =>
      let s2 := { s1 with _catch_all := dictInsert s1._catch_all e resp }
      let (s3, reqs, res) := get_info_loop t es s2
      (s3, req :: reqs, res)

/-- Method `Dingz.get_info` (`dingz.py` lines 50–62). -/
def get_info (t : Http) (s : State) : State × List Request × Except DErr Unit :=
  get_info_loop t infoEndpoints s

/-- Method `Dingz.get_temperature` (`dingz.py` lines 64–68): one GET; on
success stores `response["temperature"]` (full precision) in
`_temperature`. -/
def get_temperature (t : Http) (s : State) :
    State × List Request × Except DErr Unit :=
  let url := s.uri.join TEMPERATURE
  let (s1, req, r) := make_call t s "GET" url none
  match r with
  | .error e => (s1, [req], .error e)
  | .ok resp =>
    match resp.get? "temperature" with
    | none => (s1, [req], .error .keyError)
    | some v => ({ s1 with _temperature := some v }, [req], .ok ())

/-- Method `Dingz.get_button_action` (`dingz.py` lines 70–73): one GET; on
success stores the whole body in `_button_action`. -/
def get_button_action (t : Http) (s : State) :
    State × List Request × Except DErr Unit :=
  let url := s.uri.join BUTTON_ACTIONS
  let (s1, req, r) := make_call t s "GET" url none
  match r with
  | .error e => (s1, [req], .error e)
  | .ok resp => ({ s1 with _button_action := some resp }, [req], .ok ())

/-- Method `Dingz.get_light` (`dingz.py` lines 75–81): one GET; on success
assigns `_intensity = response["intensity"]` first, then
`_hour_of_day = response["state"]` (a missing `"state"` key raises after
`_intensity` was already written, matching the statement order; the
debug `print` is a pure stdout effect, not part of the state). -/
def get_light (t : Http) (s : State) :
    State × List Request × Except DErr Unit :=
  let url := s.uri.join LIGHT
  let (s1, req, r) := make_call t s "GET" url none
  match r with
  | .error e => (s1, [req], .error e)
  | .ok resp =>
    match resp.get? "intensity" with
    | none => (s1, [req], .error .keyError)
    | some v =>
      let s2 := { s1 with _intensity := some v }
      match resp.get? "state" with
      | none => (s2, [req], .error .keyError)
      | some w => ({ s2 with _hour_of_day := some w }, [req], .ok ())

/-- Method `Dingz.enabled` (`dingz.py` lines 83–87): one GET on the front-LED
status endpoint, returning `bool(response["on"])`; no cached field is
assigned. -/
def enabled (t : Http) (s : State) :
    State × List Request × Except DErr Bool :=
  let url := s.uri.join FRONT_LED_GET
  let (s1, req, r) := make_call t s "GET" url none
  match r with
  | .error e => (s1, [req], .error e)
  | .ok resp =>
    match resp.get? "on" with
    | none => (s1, [req], .error .keyError)
    | some v => (s1, [req], .ok v.truthy)

/-- Method `Dingz.turn_on` (`dingz.py` lines 89–93): one POST with body
`{"action": "on"}`; the response is discarded and no cached field is
assigned. -/
def turn_on (t : Http) (s : State) :
    State × List Request × Except DErr Unit :=
  let data := [("action", "on")]
  let url := s.uri.join FRONT_LED_SET
  let (s1, req, r) := make_call t s "POST" url (some data)
  match r with
  | .error e => (s1, [req], .error e)
  | .ok _ => (s1, [req], .ok ())

/-- Method `Dingz.turn_off` (`dingz.py` lines 95–99): one POST with body
`{"action": "off"}`; the response is discarded and no cached field is
assigned. -/
def turn_off (t : Http) (s : State) :
    State × List Request × Except DErr Unit :=
  let data := [("action", "off")]
  let url := s.uri.join FRONT_LED_SET
  let (s1, req, r) := make_call t s "POST" url (some data)
  match r with
  | .error e => (s1, [req], .error e)
  | .ok _ => (s1, [req], .ok ())

/-- Method `Dingz.close` (`dingz.py` lines 138–141): closes the session only if
one is present and `_close_session` is set.  Returns the new state and
whether the underlying session performed an actual release on this
call. -/
def close (s : State) : State × Bool :=
  match s._session with
  | none => (s, false)
  | some sess =>
    if s._close_session then
      let (sess1, rel) := sess.closeS
      ({ s with _session := some sess1 }, rel)
    else (s, false)

/-- Python's `round(q, 1)` on an exact numeric value: round to one
decimal place, ties to even (banker's rounding). -/
def roundHalfEven (q : ℚ) : ℤ :=
  if q - ⌊q⌋ < 1 / 2 then ⌊q⌋
  else if q - ⌊q⌋ > 1 / 2 then ⌊q⌋ + 1
  else if ⌊q⌋ % 2 = 0 then ⌊q⌋ else ⌊q⌋ + 1

/-- Round to one decimal place, as `round(x, 1)`. -/
def round1 (q : ℚ) : ℚ := (roundHalfEven (q * 10) : ℚ) / 10

/-- Python `round(v, 1)` applied to a cached JSON value: numbers round, a bool
is an int subclass in Python (returned as 0/1), everything else —
including the unset `None` — raises `TypeError`. -/
def pyRound1 (v : Option Json) : Except DErr ℚ :=
  match v with
  | some (.num q) => .ok (round1 q)
  | some (.bool b) => .ok (if b then 1 else 0)
  | _ => .error .typeError

/-- Property `Dingz.device_details` property (`dingz.py` lines 101–104). -/
def device_details (s : State) : Option Json := s._device_details

/-- Property `Dingz.everything` property (`dingz.py` lines 106–109). -/
def everything (s : State) : List (String × Json) := s._catch_all

/-- Property `Dingz.button_action` property (`dingz.py` lines 111–114). -/
def button_action (s : State) : Option Json := s._button_action

/-- Property `Dingz.temperature` property (`dingz.py` lines 116–119):
`round(self._temperature, 1)`, raising when the cache is unset or
non-numeric. -/
def temperature (s : State) : Except DErr ℚ := pyRound1 s._temperature

/-- Property `Dingz.day` property (`dingz.py` lines 121–124):
`True if self._hour_of_day == "day" else False`. -/
def day (s : State) : Bool :=
  match s._hour_of_day with
  | some j => j.eqStr "day"
  | none => false

/-- Property `Dingz.night` property (`dingz.py` lines 126–129):
`True if self._hour_of_day == "night" else False`. -/
def night (s : State) : Bool :=
  match s._hour_of_day with
  | some j => j.eqStr "night"
  | none => false

/-- Property `Dingz.intensity` property (`dingz.py` lines 131–134):
`round(self._intensity, 1)`. -/
def intensity (s : State) : Except DErr ℚ := pyRound1 s._intensity

/-- The operations of the class, for uniform frame statements. -/
inductive Op where
  | get_device_info
  | get_info
  | get_temperature
  | get_button_action
  | get_light
  | enabled
  | turn_on
  | turn_off
  | close
deriving DecidableEq, Repr

/-- Run an operation for its state effect only. -/
def runOp (op : Op) (t : Http) (s : State) : State :=
  match op with
  | .get_device_info => (get_device_info t s).1
  | .get_info => (get_info t s).1
  | .get_temperature => (get_temperature t s).1
  | .get_button_action => (get_button_action t s).1
  | .get_light => (get_light t s).1
  | .enabled => (enabled t s).1
  | .turn_on => (turn_on t s).1
  | .turn_off => (turn_off t s).1
  | .close => (close s).1

/-- Run a sequence of operations, each with its own transport oracle. -/
def runOps : List (Op × Http) → State → State
  | [], s => s
  | (op, t) :: rest, s => runOps rest (runOp op t s)

/-- The six cached accessor fields of the data model (spec §3). -/
inductive CField where
  | deviceDetails
  | everything
  | buttonAction
  | temperature
  | intensity
  | dayNightState
deriving DecidableEq, Repr

/-- The cached-field content, uniformly: an `Option Json` for the five
scalar fields, the association list for `everything`. -/
def readCF : CField → State → Option Json ⊕ List (String × Json)
  | .deviceDetails, s => .inl s._device_details
  | .everything, s => .inr s._catch_all
  | .buttonAction, s => .inl s._button_action
  | .temperature, s => .inl s._temperature
  | .intensity, s => .inl s._intensity
  | .dayNightState, s => .inl s._hour_of_day

/-- Which operation writes which cached field (from the assignments in
the source: `get_light` writes both `intensity` and `dayNightState`). -/
def writes : Op → CField → Bool
  | .get_device_info, .deviceDetails => true
  | .get_info, .everything => true
  | .get_temperature, .temperature => true
  | .get_button_action, .buttonAction => true
  | .get_light, .intensity => true
  | .get_light, .dayNightState => true
  | _, _ => false

/-- The GET request a method issues for endpoint `e` from state `s`. -/
def reqG (s : State) (e : String) : Request :=
  { method := "GET", url := s.uri.join e, data := none }

/-- The POST request of `turn_on`/`turn_off` with action `a`. -/
def reqLed (s : State) (a : String) : Request :=
  { method := "POST", url := s.uri.join FRONT_LED_SET, data := some [("action", a)] }

/-- Two states agree on all six cached accessor fields. -/
def cachedEq (s s' : State) : Prop :=
  s'._device_details = s._device_details ∧
  s'._catch_all = s._catch_all ∧
  s'._button_action = s._button_action ∧
  s'._temperature = s._temperature ∧
  s'._intensity = s._intensity ∧
  s'._hour_of_day = s._hour_of_day

/-- The key list of a dict, in insertion order. -/
def keys (d : List (String × Json)) : List String := d.map Prod.fst

/-- Insert keys in order, skipping those already present: the key list
of a dict after assigning each key of `es` in turn. -/
def foldIns (ks : List String) : List String → List String
  | [] => ks
  | e :: es => foldIns (if e ∈ ks then ks else ks ++ [e]) es

/-- A transport that answers every request with the same body. -/
def okT (j : Json) : Http := fun _ => .ok j

/-- A transport on which every request fails. -/
def errT : Http := fun _ => .error ()

/-- The temperature body of the spec's first testable property. -/
def tempBody : Json := .obj [("temperature", .num (2137 / 100))]

/-- The light body of the spec's second testable property. -/
def lightBody : Json :=
  .obj [("intensity", .num (123456 / 1000)), ("state", .str "night")]

/-- A light body with the `"state"` field missing. -/
def lightNoState : Json := .obj [("intensity", .num 5)]

/-- A transport failing exactly on the settings endpoint of a client for
host `"h"` (all other requests answered with `.null`). -/
def failSettingsT : Http := fun r =>
  if r.url = (init "h" none).uri.join SETTINGS then .error () else .ok .null

/-! ## Basic lemmas about the session helper and `make_call` -/

theorem mkSess_cached (s : State) : cachedEq s (mkSess s) := by
  unfold mkSess cachedEq
  split <;> simp

theorem mkSess_uri (s : State) : (mkSess s).uri = s.uri := by
  unfold mkSess
  split <;> rfl

theorem mkSess_of_some {s : State} {sess : Session}
    (h : s._session = some sess) : mkSess s = s := by
  simp [mkSess, h]

theorem make_call_ok {t : Http} {m : String} {u : Url}
    {d : Option (List (String × String))} {j : Json} (s : State)
    (h : t { method := m, url := u, data := d } = .ok j) :
    make_call t s m u d =
      (mkSess s, { method := m, url := u, data := d }, .ok j) := by
  simp [make_call, h]

theorem make_call_err {t : Http} {m : String} {u : Url}
    {d : Option (List (String × String))} (s : State)
    (h : t { method := m, url := u, data := d } = .error ()) :
    make_call t s m u d =
      (mkSess s, { method := m, url := u, data := d }, .error .transport) := by
  simp [make_call, h]

/-! ## Equation lemmas for each method, by case on the transport -/

theorem get_temperature_err {t : Http} {s : State}
    (h : t (reqG s TEMPERATURE) = .error ()) :
    get_temperature t s = (mkSess s, [reqG s TEMPERATURE], .error .transport) := by
  simp [get_temperature, make_call, reqG] at *
  simp [h]

theorem get_temperature_ok {t : Http} {s : State} {resp : Json}
    (h : t (reqG s TEMPERATURE) = .ok resp) :
    get_temperature t s =
      match resp.get? "temperature" with
      | none => (mkSess s, [reqG s TEMPERATURE], .error .keyError)
      | some v =>
        ({ mkSess s with _temperature := some v }, [reqG s TEMPERATURE], .ok ()) := by
  simp [get_temperature, make_call, reqG] at *
  simp [h]

theorem get_device_info_err {t : Http} {s : State}
    (h : t (reqG s DEVICE_INFO) = .error ()) :
    get_device_info t s = (mkSess s, [reqG s DEVICE_INFO], .error .transport) := by
  simp [get_device_info, make_call, reqG] at *
  simp [h]

theorem get_device_info_ok {t : Http} {s : State} {resp : Json}
    (h : t (reqG s DEVICE_INFO) = .ok resp) :
    get_device_info t s =
      ({ mkSess s with _device_details := some resp },
       [reqG s DEVICE_INFO], .ok ()) := by
  simp [get_device_info, make_call, reqG] at *
  simp [h]

theorem get_button_action_err {t : Http} {s : State}
    (h : t (reqG s BUTTON_ACTIONS) = .error ()) :
    get_button_action t s =
      (mkSess s, [reqG s BUTTON_ACTIONS], .error .transport) := by
  simp [get_button_action, make_call, reqG] at *
  simp [h]

theorem get_button_action_ok {t : Http} {s : State} {resp : Json}
    (h : t (reqG s BUTTON_ACTIONS) = .ok resp) :
    get_button_action t s =
      ({ mkSess s with _button_action := some resp },
       [reqG s BUTTON_ACTIONS], .ok ()) := by
  simp [get_button_action, make_call, reqG] at *
  simp [h]

theorem get_light_err {t : Http} {s : State}
    (h : t (reqG s LIGHT) = .error ()) :
    get_light t s = (mkSess s, [reqG s LIGHT], .error .transport) := by
  simp [get_light, make_call, reqG] at *
  simp [h]

theorem get_light_ok {t : Http} {s : State} {resp : Json}
    (h : t (reqG s LIGHT) = .ok resp) :
    get_light t s =
      match resp.get? "intensity" with
      | none => (mkSess s, [reqG s LIGHT], .error .keyError)
      | some v =>
        match resp.get? "state" with
        | none =>
          ({ mkSess s with _intensity := some v }, [reqG s LIGHT],
           .error .keyError)
        | some w =>
          ({ mkSess s with _intensity := some v, _hour_of_day := some w },
           [reqG s LIGHT], .ok ()) := by
  simp [get_light, make_call, reqG] at *
  simp [h]

theorem enabled_err {t : Http} {s : State}
    (h : t (reqG s FRONT_LED_GET) = .error ()) :
    enabled t s = (mkSess s, [reqG s FRONT_LED_GET], .error .transport) := by
  simp [enabled, make_call, reqG] at *
  simp [h]

theorem enabled_ok {t : Http} {s : State} {resp : Json}
    (h : t (reqG s FRONT_LED_GET) = .ok resp) :
    enabled t s =
      match resp.get? "on" with
      | none => (mkSess s, [reqG s FRONT_LED_GET], .error .keyError)
      | some v => (mkSess s, [reqG s FRONT_LED_GET], .ok v.truthy) := by
  simp [enabled, make_call, reqG] at *
  simp [h]

theorem turn_on_eq (t : Http) (s : State) :
    turn_on t s =
      (mkSess s, [reqLed s "on"],
       match t (reqLed s "on") with
       | .ok _ => .ok ()
       | .error _ => .error .transport) := by
  simp [turn_on, make_call, reqLed]
  cases t { method := "POST", url := s.uri.join FRONT_LED_SET,
            data := some [("action", "on")] } <;> simp

theorem turn_off_eq (t : Http) (s : State) :
    turn_off t s =
      (mkSess s, [reqLed s "off"],
       match t (reqLed s "off") with
       | .ok _ => .ok ()
       | .error _ => .error .transport) := by
  simp [turn_off, make_call, reqLed]
  cases t { method := "POST", url := s.uri.join FRONT_LED_SET,
            data := some [("action", "off")] } <;> simp

theorem get_info_loop_nil (t : Http) (s : State) :
    get_info_loop t [] s = (s, [], .ok ()) := rfl

theorem get_info_loop_cons_err {t : Http} {s : State} {e : String}
    (es : List String) (h : t (reqG s e) = .error ()) :
    get_info_loop t (e :: es) s = (mkSess s, [reqG s e], .error .transport) := by
  simp [get_info_loop, make_call, reqG] at *
  simp [h]

theorem get_info_loop_cons_ok {t : Http} {s : State} {e : String} {resp : Json}
    (es : List String) (h : t (reqG s e) = .ok resp) :
    get_info_loop t (e :: es) s =
      (let s2 := { mkSess s with
          _catch_all := dictInsert (mkSess s)._catch_all e resp }
       let r := get_info_loop t es s2
       (r.1, reqG s e :: r.2.1, r.2.2)) := by
  simp [get_info_loop, make_call, reqG] at *
  simp [h]

/-! ## Dict (`_catch_all`) lemmas -/

theorem lookup_overwriteMap_self {d : List (String × Json)} {k : String}
    (v : Json) (h : (d.lookup k).isSome) :
    (d.map (fun p => if p.1 = k then (k, v) else p)).lookup k = some v := by
  induction d with
  | nil => simp at h
  | cons p rest ih =>
    obtain ⟨a, b⟩ := p
    by_cases hka : k = a
    · subst hka
      simp [List.lookup_cons]
    · have hs : (List.lookup k rest).isSome := by
        simpa [List.lookup_cons, beq_false_of_ne hka] using h
      simp [List.lookup_cons, beq_false_of_ne hka, Ne.symm hka, ih hs]

theorem lookup_overwriteMap_ne {d : List (String × Json)} {k k' : String}
    (v : Json) (h : k' ≠ k) :
    (d.map (fun p => if p.1 = k then (k, v) else p)).lookup k' = d.lookup k' := by
  induction d with
  | nil => rfl
  | cons p rest ih =>
    obtain ⟨a, b⟩ := p
    by_cases hak : a = k
    · subst hak
      simp [List.lookup_cons, beq_false_of_ne h, ih]
    · simp [List.lookup_cons, hak, ih]

theorem lookup_append_single_self {d : List (String × Json)} {k : String}
    {v : Json} (h : d.lookup k = none) :
    (d ++ [(k, v)]).lookup k = some v := by
  induction d with
  | nil => simp [List.lookup_cons]
  | cons p rest ih =>
    obtain ⟨a, b⟩ := p
    by_cases hka : k = a
    · subst hka
      simp [List.lookup_cons] at h
    · have hr : List.lookup k rest = none := by
        simpa [List.lookup_cons, beq_false_of_ne hka] using h
      simp [List.lookup_cons, beq_false_of_ne hka, ih hr]

theorem lookup_append_single_ne {d : List (String × Json)} {k k' : String}
    {v : Json} (h : k' ≠ k) :
    (d ++ [(k, v)]).lookup k' = d.lookup k' := by
  induction d with
  | nil => simp [List.lookup_cons, beq_false_of_ne h]
  | cons p rest ih =>
    obtain ⟨a, b⟩ := p
    by_cases hka : k' = a
    · subst hka
      simp [List.lookup_cons]
    · simp [List.lookup_cons, beq_false_of_ne hka, ih]

theorem lookup_dictInsert_self (d : List (String × Json)) (k : String)
    (v : Json) : (dictInsert d k v).lookup k = some v := by
  unfold dictInsert
  by_cases h : (d.lookup k).isSome
  · simp only [h, if_true]
    exact lookup_overwriteMap_self v h
  · simp only [h, if_false]
    exact lookup_append_single_self (Option.not_isSome_iff_eq_none.mp h)

theorem lookup_dictInsert_ne (d : List (String × Json)) {k k' : String}
    (v : Json) (h : k' ≠ k) :
    (dictInsert d k v).lookup k' = d.lookup k' := by
  unfold dictInsert
  by_cases hs : (d.lookup k).isSome
  · simp only [hs, if_true]
    exact lookup_overwriteMap_ne v h
  · simp only [hs, if_false]
    exact lookup_append_single_ne h

theorem mem_keys_iff_lookup_isSome (d : List (String × Json)) (k : String) :
    k ∈ keys d ↔ (d.lookup k).isSome := by
  induction d with
  | nil => simp [keys]
  | cons p rest ih =>
    obtain ⟨a, b⟩ := p
    by_cases hka : k = a
    · subst hka
      simp [keys, List.lookup_cons]
    · simp [keys, List.lookup_cons, beq_false_of_ne hka, hka]

theorem keys_overwriteMap (d : List (String × Json)) (k : String) (v : Json) :
    keys (d.map (fun p => if p.1 = k then (k, v) else p)) = keys d := by
  simp only [keys, List.map_map]
  apply List.map_congr_left
  intro p _
  by_cases hp : p.1 = k <;> simp [hp]

theorem keys_dictInsert (d : List (String × Json)) (k : String) (v : Json) :
    keys (dictInsert d k v) =
      if k ∈ keys d then keys d else keys d ++ [k] := by
  unfold dictInsert
  by_cases h : (d.lookup k).isSome
  · rw [if_pos h, if_pos ((mem_keys_iff_lookup_isSome d k).mpr h)]
    exact keys_overwriteMap d k v
  · have hk : k ∉ keys d := fun hm => h ((mem_keys_iff_lookup_isSome d k).mp hm)
    rw [if_neg h, if_neg hk]
    simp [keys]

/-! ## `get_info` loop lemmas -/

theorem reqG_congr {s s' : State} (e : String) (h : s'.uri = s.uri) :
    reqG s' e = reqG s e := by
  simp [reqG, h]

theorem get_info_loop_uri (t : Http) (es : List String) (s : State) :
    ((get_info_loop t es s).1).uri = s.uri := by
  induction es generalizing s with
  | nil => rfl
  | cons e es ih =>
    cases ht : t (reqG s e) with
    | error u =>
      cases u
      rw [get_info_loop_cons_err es ht]
      exact mkSess_uri s
    | ok resp =>
      rw [get_info_loop_cons_ok es ht]
      simp only []
      rw [ih]
      exact mkSess_uri s

theorem get_info_loop_trace_ok (t : Http) (es : List String) (s : State)
    (h : (get_info_loop t es s).2.2 = .ok ()) :
    (get_info_loop t es s).2.1 = es.map (reqG s) := by
  induction es generalizing s with
  | nil => rfl
  | cons e es ih =>
    cases ht : t (reqG s e) with
    | error u =>
      cases u
      rw [get_info_loop_cons_err es ht] at h
      simp at h
    | ok resp =>
      rw [get_info_loop_cons_ok es ht] at h ⊢
      simp only [List.map_cons, List.cons.injEq, true_and] at h ⊢
      rw [ih _ h]
      apply List.map_congr_left
      intro e' _
      apply reqG_congr
      exact mkSess_uri s

theorem get_info_loop_lookup_notmem (t : Http) (es : List String) (s : State)
    {k : String} (hk : k ∉ es) :
    ((get_info_loop t es s).1)._catch_all.lookup k = s._catch_all.lookup k := by
  induction es generalizing s with
  | nil => rfl
  | cons e es ih =>
    have hke : k ≠ e := fun h => hk (h ▸ List.mem_cons_self e es)
    have hkes : k ∉ es := fun h => hk (List.mem_cons_of_mem e h)
    cases ht : t (reqG s e) with
    | error u =>
      cases u
      rw [get_info_loop_cons_err es ht]
      exact congrArg (List.lookup k) (mkSess_cached s).2.1
    | ok resp =>
      rw [get_info_loop_cons_ok es ht]
      simp only []
      rw [ih _ hkes]
      simp only []
      rw [lookup_dictInsert_ne _ _ hke]
      exact congrArg (List.lookup k) (mkSess_cached s).2.1

theorem get_info_loop_lookup_ok (t : Http) (es : List String) (s : State)
    (hnd : es.Nodup) (h : (get_info_loop t es s).2.2 = .ok ()) :
    ∀ e ∈ es, ∃ resp, t (reqG s e) = .ok resp ∧
      ((get_info_loop t es s).1)._catch_all.lookup e = some resp := by
  induction es generalizing s with
  | nil => simp
  | cons e' es ih =>
    have hnd2 : es.Nodup := hnd.of_cons
    have hne : e' ∉ es := (List.nodup_cons.mp hnd).1
    cases ht : t (reqG s e') with
    | error u =>
      cases u
      rw [get_info_loop_cons_err es ht] at h
      simp at h
    | ok resp =>
      rw [get_info_loop_cons_ok es ht] at h ⊢
      simp only [] at h ⊢
      intro e he
      rcases List.mem_cons.mp he with rfl | hin
      · refine ⟨resp, ht, ?_⟩
        rw [get_info_loop_lookup_notmem t es _ hne]
        simp only []
        exact lookup_dictInsert_self _ e resp
      · obtain ⟨r2, hr2, hl⟩ := ih _ hnd2 h e hin
        refine ⟨r2, ?_, hl⟩
        have hu : ({ mkSess s with
            _catch_all := dictInsert (mkSess s)._catch_all e' resp } : State).uri
            = s.uri := by
          simp [mkSess_uri]
        rwa [reqG_congr e hu] at hr2

theorem get_info_loop_keys_ok (t : Http) (es : List String) (s : State)
    (h : (get_info_loop t es s).2.2 = .ok ()) :
    keys ((get_info_loop t es s).1)._catch_all =
      foldIns (keys s._catch_all) es := by
  induction es generalizing s with
  | nil => rfl
  | cons e es ih =>
    cases ht : t (reqG s e) with
    | error u =>
      cases u
      rw [get_info_loop_cons_err es ht] at h
      simp at h
    | ok resp =>
      rw [get_info_loop_cons_ok es ht] at h ⊢
      simp only [] at h ⊢
      rw [ih _ h]
      simp only [foldIns]
      congr 1
      rw [keys_dictInsert, (mkSess_cached s).2.1]

theorem get_info_loop_frame (t : Http) (es : List String) (s : State) :
    ((get_info_loop t es s).1)._device_details = s._device_details ∧
    ((get_info_loop t es s).1)._button_action = s._button_action ∧
    ((get_info_loop t es s).1)._temperature = s._temperature ∧
    ((get_info_loop t es s).1)._intensity = s._intensity ∧
    ((get_info_loop t es s).1)._hour_of_day = s._hour_of_day := by
  induction es generalizing s with
  | nil => exact ⟨rfl, rfl, rfl, rfl, rfl⟩
  | cons e es ih =>
    cases ht : t (reqG s e) with
    | error u =>
      cases u
      rw [get_info_loop_cons_err es ht]
      obtain ⟨h1, h2, h3, h4, h5, h6⟩ := mkSess_cached s
      exact ⟨h1, h3, h4, h5, h6⟩
    | ok resp =>
      rw [get_info_loop_cons_ok es ht]
      simp only []
      obtain ⟨i1, i2, i3, i4, i5⟩ := ih (s := { mkSess s with
        _catch_all := dictInsert (mkSess s)._catch_all e resp })
      obtain ⟨h1, h2, h3, h4, h5, h6⟩ := mkSess_cached s
      exact ⟨i1.trans h1, i2.trans h3, i3.trans h4, i4.trans h5, i5.trans h6⟩

/-! ## `foldIns` lemmas -/

theorem foldIns_mem (es : List String) (ks : List String) (a : String) :
    a ∈ foldIns ks es ↔ a ∈ ks ∨ a ∈ es := by
  induction es generalizing ks with
  | nil => simp [foldIns]
  | cons e es ih =>
    simp only [foldIns, ih]
    by_cases he : e ∈ ks
    · simp only [he, if_true, List.mem_cons]
      constructor
      · rintro (h | h)
        · exact Or.inl h
        · exact Or.inr (Or.inr h)
      · rintro (h | rfl | h)
        · exact Or.inl h
        · exact Or.inl he
        · exact Or.inr h
    · simp only [he, if_false, List.mem_append, List.mem_singleton,
        List.mem_cons]
      tauto

theorem foldIns_nodup (es : List String) (ks : List String) (h : ks.Nodup) :
    (foldIns ks es).Nodup := by
  induction es generalizing ks with
  | nil => exact h
  | cons e es ih =>
    simp only [foldIns]
    by_cases he : e ∈ ks
    · simp only [he, if_true]
      exact ih _ h
    · simp only [he, if_false]
      exact ih _ (by simp [List.nodup_append, h, he])

/-! ## Frame lemmas: which cached fields each method leaves unchanged -/

theorem get_device_info_frame (t : Http) (s : State) :
    ((get_device_info t s).1)._catch_all = s._catch_all ∧
    ((get_device_info t s).1)._button_action = s._button_action ∧
    ((get_device_info t s).1)._temperature = s._temperature ∧
    ((get_device_info t s).1)._intensity = s._intensity ∧
    ((get_device_info t s).1)._hour_of_day = s._hour_of_day := by
  obtain ⟨h1, h2, h3, h4, h5, h6⟩ := mkSess_cached s
  cases ht : t (reqG s DEVICE_INFO) with
  | error u =>
    cases u
    rw [get_device_info_err ht]
    exact ⟨h2, h3, h4, h5, h6⟩
  | ok resp =>
    rw [get_device_info_ok ht]
    exact ⟨h2, h3, h4, h5, h6⟩

theorem get_temperature_frame (t : Http) (s : State) :
    ((get_temperature t s).1)._device_details = s._device_details ∧
    ((get_temperature t s).1)._catch_all = s._catch_all ∧
    ((get_temperature t s).1)._button_action = s._button_action ∧
    ((get_temperature t s).1)._intensity = s._intensity ∧
    ((get_temperature t s).1)._hour_of_day = s._hour_of_day := by
  obtain ⟨h1, h2, h3, h4, h5, h6⟩ := mkSess_cached s
  cases ht : t (reqG s TEMPERATURE) with
  | error u =>
    cases u
    rw [get_temperature_err ht]
    exact ⟨h1, h2, h3, h5, h6⟩
  | ok resp =>
    rw [get_temperature_ok ht]
    cases resp.get? "temperature" <;> exact ⟨h1, h2, h3, h5, h6⟩

theorem get_button_action_frame (t : Http) (s : State) :
    ((get_button_action t s).1)._device_details = s._device_details ∧
    ((get_button_action t s).1)._catch_all = s._catch_all ∧
    ((get_button_action t s).1)._temperature = s._temperature ∧
    ((get_button_action t s).1)._intensity = s._intensity ∧
    ((get_button_action t s).1)._hour_of_day = s._hour_of_day := by
  obtain ⟨h1, h2, h3, h4, h5, h6⟩ := mkSess_cached s
  cases ht : t (reqG s BUTTON_ACTIONS) with
  | error u =>
    cases u
    rw [get_button_action_err ht]
    exact ⟨h1, h2, h4, h5, h6⟩
  | ok resp =>
    rw [get_button_action_ok ht]
    exact ⟨h1, h2, h4, h5, h6⟩

theorem get_light_frame (t : Http) (s : State) :
    ((get_light t s).1)._device_details = s._device_details ∧
    ((get_light t s).1)._catch_all = s._catch_all ∧
    ((get_light t s).1)._button_action = s._button_action ∧
    ((get_light t s).1)._temperature = s._temperature := by
  obtain ⟨h1, h2, h3, h4, h5, h6⟩ := mkSess_cached s
  cases ht : t (reqG s LIGHT) with
  | error u =>
    cases u
    rw [get_light_err ht]
    exact ⟨h1, h2, h3, h4⟩
  | ok resp =>
    rw [get_light_ok ht]
    cases resp.get? "intensity" with
    | none => exact ⟨h1, h2, h3, h4⟩
    | some v => cases resp.get? "state" <;> exact ⟨h1, h2, h3, h4⟩

theorem enabled_frame (t : Http) (s : State) :
    cachedEq s ((enabled t s).1) := by
  have hc := mkSess_cached s
  cases ht : t (reqG s FRONT_LED_GET) with
  | error u =>
    cases u
    rw [enabled_err ht]
    exact hc
  | ok resp =>
    rw [enabled_ok ht]
    cases resp.get? "on" <;> exact hc

theorem turn_on_frame (t : Http) (s : State) :
    cachedEq s ((turn_on t s).1) := by
  rw [turn_on_eq]
  exact mkSess_cached s

theorem turn_off_frame (t : Http) (s : State) :
    cachedEq s ((turn_off t s).1) := by
  rw [turn_off_eq]
  exact mkSess_cached s

/-! ## `close` lemmas -/

theorem close_not_owned {s : State} (h : s._close_session = false) :
    close s = (s, false) := by
  unfold close
  cases hs : s._session <;> simp [h]

theorem close_no_session {s : State} (h : s._session = none) :
    close s = (s, false) := by
  unfold close
  rw [h]

theorem close_owned {s : State} {sess : Session} (hs : s._session = some sess)
    (hc : s._close_session = true) :
    close s = ({ s with _session := some { closed := true } }, !sess.closed) := by
  unfold close
  rw [hs]
  simp [hc, Session.closeS]

theorem close_frame (s : State) : cachedEq s ((close s).1) := by
  unfold close
  cases hs : s._session with
  | none => exact ⟨rfl, rfl, rfl, rfl, rfl, rfl⟩
  | some sess =>
    by_cases hc : s._close_session <;>
      simp [hc, Session.closeS, cachedEq]

/-- Uniform frame property: an operation leaves every cached field it
does not write unchanged. -/
theorem runOp_frame (op : Op) (f : CField) (t : Http) (s : State)
    (h : writes op f = false) : readCF f (runOp op t s) = readCF f s := by
  cases op with
  | get_device_info =>
    obtain ⟨h2, h3, h4, h5, h6⟩ := get_device_info_frame t s
    cases f with
    | deviceDetails => simp [writes] at h
    | everything => exact congrArg Sum.inr h2
    | buttonAction => exact congrArg Sum.inl h3
    | temperature => exact congrArg Sum.inl h4
    | intensity => exact congrArg Sum.inl h5
    | dayNightState => exact congrArg Sum.inl h6
  | get_info =>
    obtain ⟨h1, h3, h4, h5, h6⟩ := get_info_loop_frame t infoEndpoints s
    cases f with
    | deviceDetails => exact congrArg Sum.inl h1
    | everything => simp [writes] at h
    | buttonAction => exact congrArg Sum.inl h3
    | temperature => exact congrArg Sum.inl h4
    | intensity => exact congrArg Sum.inl h5
    | dayNightState => exact congrArg Sum.inl h6
  | get_temperature =>
    obtain ⟨h1, h2, h3, h5, h6⟩ := get_temperature_frame t s
    cases f with
    | deviceDetails => exact congrArg Sum.inl h1
    | everything => exact congrArg Sum.inr h2
    | buttonAction => exact congrArg Sum.inl h3
    | temperature => simp [writes] at h
    | intensity => exact congrArg Sum.inl h5
    | dayNightState => exact congrArg Sum.inl h6
  | get_button_action =>
    obtain ⟨h1, h2, h4, h5, h6⟩ := get_button_action_frame t s
    cases f with
    | deviceDetails => exact congrArg Sum.inl h1
    | everything => exact congrArg Sum.inr h2
    | buttonAction => simp [writes] at h
    | temperature => exact congrArg Sum.inl h4
    | intensity => exact congrArg Sum.inl h5
    | dayNightState => exact congrArg Sum.inl h6
  | get_light =>
    obtain ⟨h1, h2, h3, h4⟩ := get_light_frame t s
    cases f with
    | deviceDetails => exact congrArg Sum.inl h1
    | everything => exact congrArg Sum.inr h2
    | buttonAction => exact congrArg Sum.inl h3
    | temperature => exact congrArg Sum.inl h4
    | intensity => simp [writes] at h
    | dayNightState => simp [writes] at h
  | enabled =>
    obtain ⟨h1, h2, h3, h4, h5, h6⟩ := enabled_frame t s
    cases f with
    | deviceDetails => exact congrArg Sum.inl h1
    | everything => exact congrArg Sum.inr h2
    | buttonAction => exact congrArg Sum.inl h3
    | temperature => exact congrArg Sum.inl h4
    | intensity => exact congrArg Sum.inl h5
    | dayNightState => exact congrArg Sum.inl h6
  | turn_on =>
    obtain ⟨h1, h2, h3, h4, h5, h6⟩ := turn_on_frame t s
    cases f with
    | deviceDetails => exact congrArg Sum.inl h1
    | everything => exact congrArg Sum.inr h2
    | buttonAction => exact congrArg Sum.inl h3
    | temperature => exact congrArg Sum.inl h4
    | intensity => exact congrArg Sum.inl h5
    | dayNightState => exact congrArg Sum.inl h6
  | turn_off =>
    obtain ⟨h1, h2, h3, h4, h5, h6⟩ := turn_off_frame t s
    cases f with
    | deviceDetails => exact congrArg Sum.inl h1
    | everything => exact congrArg Sum.inr h2
    | buttonAction => exact congrArg Sum.inl h3
    | temperature => exact congrArg Sum.inl h4
    | intensity => exact congrArg Sum.inl h5
    | dayNightState => exact congrArg Sum.inl h6
  | close =>
    obtain ⟨h1, h2, h3, h4, h5, h6⟩ := close_frame s
    cases f with
    | deviceDetails => exact congrArg Sum.inl h1
    | everything => exact congrArg Sum.inr h2
    | buttonAction => exact congrArg Sum.inl h3
    | temperature => exact congrArg Sum.inl h4
    | intensity => exact congrArg Sum.inl h5
    | dayNightState => exact congrArg Sum.inl h6

/-! ## Session-ownership lemmas -/

theorem get_device_info_sess (t : Http) (s : State) :
    ((get_device_info t s).1)._session = (mkSess s)._session ∧
    ((get_device_info t s).1)._close_session = (mkSess s)._close_session := by
  cases ht : t (reqG s DEVICE_INFO) with
  | error u =>
    cases u
    rw [get_device_info_err ht]
    exact ⟨rfl, rfl⟩
  | ok resp =>
    rw [get_device_info_ok ht]
    exact ⟨rfl, rfl⟩

theorem get_temperature_sess (t : Http) (s : State) :
    ((get_temperature t s).1)._session = (mkSess s)._session ∧
    ((get_temperature t s).1)._close_session = (mkSess s)._close_session := by
  cases ht : t (reqG s TEMPERATURE) with
  | error u =>
    cases u
    rw [get_temperature_err ht]
    exact ⟨rfl, rfl⟩
  | ok resp =>
    rw [get_temperature_ok ht]
    cases resp.get? "temperature" <;> exact ⟨rfl, rfl⟩

theorem get_button_action_sess (t : Http) (s : State) :
    ((get_button_action t s).1)._session = (mkSess s)._session ∧
    ((get_button_action t s).1)._close_session = (mkSess s)._close_session := by
  cases ht : t (reqG s BUTTON_ACTIONS) with
  | error u =>
    cases u
    rw [get_button_action_err ht]
    exact ⟨rfl, rfl⟩
  | ok resp =>
    rw [get_button_action_ok ht]
    exact ⟨rfl, rfl⟩

theorem get_light_sess (t : Http) (s : State) :
    ((get_light t s).1)._session = (mkSess s)._session ∧
    ((get_light t s).1)._close_session = (mkSess s)._close_session := by
  cases ht : t (reqG s LIGHT) with
  | error u =>
    cases u
    rw [get_light_err ht]
    exact ⟨rfl, rfl⟩
  | ok resp =>
    rw [get_light_ok ht]
    cases resp.get? "intensity" with
    | none => exact ⟨rfl, rfl⟩
    | some v => cases resp.get? "state" <;> exact ⟨rfl, rfl⟩

theorem enabled_sess (t : Http) (s : State) :
    ((enabled t s).1)._session = (mkSess s)._session ∧
    ((enabled t s).1)._close_session = (mkSess s)._close_session := by
  cases ht : t (reqG s FRONT_LED_GET) with
  | error u =>
    cases u
    rw [enabled_err ht]
    exact ⟨rfl, rfl⟩
  | ok resp =>
    rw [enabled_ok ht]
    cases resp.get? "on" <;> exact ⟨rfl, rfl⟩

theorem get_info_loop_sess {sess : Session} (t : Http) (es : List String)
    {s : State} (h : s._session = some sess) :
    ((get_info_loop t es s).1)._session = some sess ∧
    ((get_info_loop t es s).1)._close_session = s._close_session := by
  induction es generalizing s with
  | nil => exact ⟨h, rfl⟩
  | cons e es ih =>
    cases ht : t (reqG s e) with
    | error u =>
      cases u
      rw [get_info_loop_cons_err es ht, mkSess_of_some h]
      exact ⟨h, rfl⟩
    | ok resp =>
      rw [get_info_loop_cons_ok es ht]
      simp only [mkSess_of_some h]
      exact ih (s := { s with _catch_all := dictInsert s._catch_all e resp }) h

/-- With an externally supplied session, no operation ever sets the
ownership flag or replaces the session. -/
theorem runOp_external_session {s : State} {sess : Session} (op : Op)
    (t : Http) (h : s._session = some sess) (hc : s._close_session = false) :
    (runOp op t s)._session = some sess ∧
    (runOp op t s)._close_session = false := by
  have hm : mkSess s = s := mkSess_of_some h
  cases op with
  | get_device_info =>
    obtain ⟨h1, h2⟩ := get_device_info_sess t s
    rw [hm] at h1 h2
    exact ⟨h1.trans h, h2.trans hc⟩
  | get_info =>
    obtain ⟨h1, h2⟩ := get_info_loop_sess t infoEndpoints h
    exact ⟨h1, h2.trans hc⟩
  | get_temperature =>
    obtain ⟨h1, h2⟩ := get_temperature_sess t s
    rw [hm] at h1 h2
    exact ⟨h1.trans h, h2.trans hc⟩
  | get_button_action =>
    obtain ⟨h1, h2⟩ := get_button_action_sess t s
    rw [hm] at h1 h2
    exact ⟨h1.trans h, h2.trans hc⟩
  | get_light =>
    obtain ⟨h1, h2⟩ := get_light_sess t s
    rw [hm] at h1 h2
    exact ⟨h1.trans h, h2.trans hc⟩
  | enabled =>
    obtain ⟨h1, h2⟩ := enabled_sess t s
    rw [hm] at h1 h2
    exact ⟨h1.trans h, h2.trans hc⟩
  | turn_on =>
    rw [runOp, turn_on_eq]
    simp only [hm]
    exact ⟨h, hc⟩
  | turn_off =>
    rw [runOp, turn_off_eq]
    simp only [hm]
    exact ⟨h, hc⟩
  | close =>
    rw [runOp, close_not_owned hc]
    exact ⟨h, hc⟩

theorem runOps_external_session {sess : Session} (ops : List (Op × Http))
    {s : State} (h : s._session = some sess)
    (hc : s._close_session = false) :
    (runOps ops s)._session = some sess ∧
    (runOps ops s)._close_session = false := by
  induction ops generalizing s with
  | nil => exact ⟨h, hc⟩
  | cons p rest ih =>
    obtain ⟨h1, h2⟩ := runOp_external_session p.1 p.2 h hc
    exact ih h1 h2

/-! ## Claim theorems -/

/-- Claim C1: a successful `get_temperature` call whose body contains
field `temperature` with numeric value `q` stores `q` in the cache at
full precision, and the `temperature` accessor returns `q` rounded to
one decimal place at read time; in particular for a body
`{"temperature": 21.37}` the accessor returns `21.4`. -/
theorem C1_temperature_full_precision_cache_rounded_read
    (t : Http) (s : State) (resp : Json) (q : ℚ)
    (hok : t (reqG s TEMPERATURE) = .ok resp)
    (hf : resp.get? "temperature" = some (.num q)) :
    ((get_temperature t s).1)._temperature = some (.num q) ∧
    (get_temperature t s).2.2 = .ok () ∧
    temperature ((get_temperature t s).1) = .ok (round1 q) ∧
    (q = 2137 / 100 →
      temperature ((get_temperature t s).1) = .ok (214 / 10)) := by
  rw [get_temperature_ok hok, hf]
  refine ⟨rfl, rfl, rfl, ?_⟩
  rintro rfl
  simp only [temperature, pyRound1, Except.ok.injEq]
  norm_num [round1, roundHalfEven]

/-- Witness for C1 at the spec's concrete body `{"temperature": 21.37}`. -/
theorem C1_witness :
    temperature ((get_temperature (okT tempBody) (init "1.2.3.4" none)).1)
      = .ok (214 / 10) :=
  (C1_temperature_full_precision_cache_rounded_read (okT tempBody)
    (init "1.2.3.4" none) tempBody (2137 / 100) rfl rfl).2.2.2 rfl

/-- Claim C2: a successful `get_light` call with body fields `intensity`
and `state` caches both; the `intensity` accessor rounds to one decimal
at read time and `night`/`day` compare the cached token against
`"night"`/`"day"` by string equality; in particular for
`{"intensity": 123.456, "state": "night"}`, `intensity` returns `123.5`,
`night` is true and `day` is false. -/
theorem C2_light_intensity_and_day_night
    (t : Http) (s : State) (resp : Json) (q : ℚ) (st : String)
    (hok : t (reqG s LIGHT) = .ok resp)
    (hi : resp.get? "intensity" = some (.num q))
    (hst : resp.get? "state" = some (.str st)) :
    ((get_light t s).1)._intensity = some (.num q) ∧
    ((get_light t s).1)._hour_of_day = some (.str st) ∧
    (get_light t s).2.2 = .ok () ∧
    intensity ((get_light t s).1) = .ok (round1 q) ∧
    night ((get_light t s).1) = (st == "night") ∧
    day ((get_light t s).1) = (st == "day") ∧
    (q = 123456 / 1000 → intensity ((get_light t s).1) = .ok (1235 / 10)) ∧
    (st = "night" →
      night ((get_light t s).1) = true ∧ day ((get_light t s).1) = false) := by
  rw [get_light_ok hok, hi, hst]
  refine ⟨rfl, rfl, rfl, rfl, rfl, rfl, ?_, ?_⟩
  · rintro rfl
    simp only [intensity, pyRound1, Except.ok.injEq]
    norm_num [round1, roundHalfEven]
  · rintro rfl
    exact ⟨rfl, rfl⟩

/-- Witness for C2 at the spec's concrete body
`{"intensity": 123.456, "state": "night"}`. -/
theorem C2_witness :
    intensity ((get_light (okT lightBody) (init "1.2.3.4" none)).1)
        = .ok (1235 / 10) ∧
    night ((get_light (okT lightBody) (init "1.2.3.4" none)).1) = true ∧
    day ((get_light (okT lightBody) (init "1.2.3.4" none)).1) = false :=
  have h := C2_light_intensity_and_day_night (okT lightBody)
    (init "1.2.3.4" none) lightBody (123456 / 1000) "night" rfl rfl rfl
  ⟨h.2.2.2.2.2.2.1 rfl, (h.2.2.2.2.2.2.2 rfl).1, (h.2.2.2.2.2.2.2 rfl).2⟩

/-- Claim C4: when the underlying HTTP call of a refresh fails, the
transport error is raised to the caller and every cached accessor field
is exactly as it was before the failed call — for `get_info`, the failed
call itself changes nothing and aborts the loop. -/
theorem C4_failed_call_leaves_cache_untouched :
    (∀ (t : Http) (s : State), t (reqG s TEMPERATURE) = .error () →
      (get_temperature t s).2.2 = .error .transport ∧
      cachedEq s ((get_temperature t s).1)) ∧
    (∀ (t : Http) (s : State), t (reqG s LIGHT) = .error () →
      (get_light t s).2.2 = .error .transport ∧
      cachedEq s ((get_light t s).1)) ∧
    (∀ (t : Http) (s : State), t (reqG s BUTTON_ACTIONS) = .error () →
      (get_button_action t s).2.2 = .error .transport ∧
      cachedEq s ((get_button_action t s).1)) ∧
    (∀ (t : Http) (s : State), t (reqG s DEVICE_INFO) = .error () →
      (get_device_info t s).2.2 = .error .transport ∧
      cachedEq s ((get_device_info t s).1)) ∧
    (∀ (t : Http) (s : State) (e : String) (es : List String),
      t (reqG s e) = .error () →
      (get_info_loop t (e :: es) s).2.2 = .error .transport ∧
      cachedEq s ((get_info_loop t (e :: es) s).1)) := by
  refine ⟨?_, ?_, ?_, ?_, ?_⟩
  · intro t s h
    rw [get_temperature_err h]
    exact ⟨rfl, mkSess_cached s⟩
  · intro t s h
    rw [get_light_err h]
    exact ⟨rfl, mkSess_cached s⟩
  · intro t s h
    rw [get_button_action_err h]
    exact ⟨rfl, mkSess_cached s⟩
  · intro t s h
    rw [get_device_info_err h]
    exact ⟨rfl, mkSess_cached s⟩
  · intro t s e es h
    rw [get_info_loop_cons_err es h]
    exact ⟨rfl, mkSess_cached s⟩

/-- Witness for C4: a failing transport on `get_temperature` raises and
leaves the fresh cache untouched. -/
theorem C4_witness :
    (get_temperature errT (init "h" none)).2.2 = .error .transport ∧
    cachedEq (init "h" none) ((get_temperature errT (init "h" none)).1) :=
  C4_failed_call_leaves_cache_untouched.1 errT (init "h" none) rfl

/-- Claim C7: endpoint URLs are produced by relative-reference
resolution of the endpoint path against the base URI, not by naive
concatenation: the base for host `1.2.3.4` is `http://1.2.3.4/api/v1/`,
joining `light` yields `http://1.2.3.4/api/v1/light`, an
absolute-looking path replaces the whole path, and `get_light` issues
exactly the request whose URL is that join. -/
theorem C7_url_relative_reference_resolution :
    (init "1.2.3.4" none).uri.toStr = "http://1.2.3.4/api/v1/" ∧
    ((init "1.2.3.4" none).uri.join LIGHT).toStr
      = "http://1.2.3.4/api/v1/light" ∧
    ((init "1.2.3.4" none).uri.join "/zap/zop").toStr
      = "http://1.2.3.4/zap/zop" ∧
    (∀ (t : Http) (s : State), (get_light t s).2.1 = [reqG s LIGHT]) ∧
    (∀ s : State, (reqG s LIGHT).url = s.uri.join LIGHT) := by
  refine ⟨by decide, by decide, by decide, ?_, fun s => rfl⟩
  intro t s
  cases ht : t (reqG s LIGHT) with
  | error u =>
    cases u
    rw [get_light_err ht]
  | ok resp =>
    rw [get_light_ok ht]
    cases resp.get? "intensity" with
    | none => rfl
    | some v => cases resp.get? "state" <;> rfl

/-- Claim C8: `turn_on` sends exactly one POST with body
`{"action": "on"}` and `turn_off` exactly one POST with
`{"action": "off"}`; one request each, with no retry, whether the call
succeeds or fails. -/
theorem C8_led_single_post :
    (∀ (t : Http) (s : State), (turn_on t s).2.1 = [reqLed s "on"]) ∧
    (∀ (t : Http) (s : State), (turn_off t s).2.1 = [reqLed s "off"]) ∧
    (∀ s : State, (reqLed s "on").method = "POST" ∧
      (reqLed s "on").data = some [("action", "on")]) ∧
    (∀ s : State, (reqLed s "off").method = "POST" ∧
      (reqLed s "off").data = some [("action", "off")]) :=
  ⟨fun t s => by rw [turn_on_eq], fun t s => by rw [turn_off_eq],
   fun s => ⟨rfl, rfl⟩, fun s => ⟨rfl, rfl⟩⟩

/-- Claim C9: `enabled`, `turn_on` and `turn_off` leave every cached
field unchanged, and `enabled` returns the Python truthiness of field
`on` of the response body. -/
theorem C9_led_ops_mutate_no_cached_field :
    (∀ (t : Http) (s : State), cachedEq s ((enabled t s).1)) ∧
    (∀ (t : Http) (s : State), cachedEq s ((turn_on t s).1)) ∧
    (∀ (t : Http) (s : State), cachedEq s ((turn_off t s).1)) ∧
    (∀ (t : Http) (s : State) (resp v : Json),
      t (reqG s FRONT_LED_GET) = .ok resp → resp.get? "on" = some v →
      (enabled t s).2.2 = .ok v.truthy) := by
  refine ⟨enabled_frame, turn_on_frame, turn_off_frame, ?_⟩
  intro t s resp v hok hv
  rw [enabled_ok hok, hv]

/-- Witness for C9: a body `{"on": true}` makes `enabled` return true
while the cache of a fresh client is untouched. -/
theorem C9_witness :
    (enabled (okT (.obj [("on", .bool true)])) (init "h" none)).2.2
        = .ok true ∧
    cachedEq (init "h" none) ((turn_on (okT .null) (init "h" none)).1) :=
  ⟨C9_led_ops_mutate_no_cached_field.2.2.2 (okT (.obj [("on", .bool true)]))
      (init "h" none) (.obj [("on", .bool true)]) (.bool true) rfl rfl,
   C9_led_ops_mutate_no_cached_field.2.1 (okT .null) (init "h" none)⟩

/-- Claim C3: `get_info` issues exactly seven GET requests, strictly in
sequence (a failing call aborts the loop before any later request), one
per documented endpoint in source order; on success the aggregate dict
holds exactly the seven endpoint keys, and a repeated call overwrites
each key's value with the latest response rather than appending. -/
theorem C3_get_info_seven_sequential_requests :
    (infoEndpoints.length = 7 ∧ infoEndpoints.Nodup) ∧
    (∀ (t : Http) (s : State), (get_info t s).2.2 = .ok () →
      (get_info t s).2.1 = infoEndpoints.map (reqG s) ∧
      (get_info t s).2.1.length = 7 ∧
      ∀ r ∈ (get_info t s).2.1, r.method = "GET") ∧
    (∀ (t : Http) (s : State) (e : String) (es : List String),
      t (reqG s e) = .error () →
      (get_info_loop t (e :: es) s).2.1 = [reqG s e] ∧
      (get_info_loop t (e :: es) s).2.2 = .error .transport) ∧
    (∀ (t : Http) (s : State), (get_info t s).2.2 = .ok () →
      (∀ k ∈ keys s._catch_all, k ∈ infoEndpoints) →
      (keys s._catch_all).Nodup →
      ((keys ((get_info t s).1)._catch_all).Nodup ∧
       (∀ e, e ∈ keys ((get_info t s).1)._catch_all ↔ e ∈ infoEndpoints) ∧
       (keys ((get_info t s).1)._catch_all).length = 7)) ∧
    (∀ (t : Http) (s : State), (get_info t s).2.2 = .ok () →
      ∀ e ∈ infoEndpoints, ∃ resp, t (reqG s e) = .ok resp ∧
        ((get_info t s).1)._catch_all.lookup e = some resp) := by
  refine ⟨⟨rfl, by decide⟩, ?_, ?_, ?_, ?_⟩
  · intro t s h
    simp only [get_info] at h ⊢
    have ht := get_info_loop_trace_ok t infoEndpoints s h
    refine ⟨ht, ?_, ?_⟩
    · rw [ht]
      simp [infoEndpoints]
    · intro r hr
      rw [ht] at hr
      obtain ⟨e, _, rfl⟩ := List.mem_map.mp hr
      rfl
  · intro t s e es h
    rw [get_info_loop_cons_err es h]
    exact ⟨rfl, rfl⟩
  · intro t s h hsub hnd
    simp only [get_info] at h ⊢
    have hk := get_info_loop_keys_ok t infoEndpoints s h
    rw [hk]
    have hmem : ∀ e, e ∈ foldIns (keys s._catch_all) infoEndpoints ↔
        e ∈ infoEndpoints := by
      intro e
      rw [foldIns_mem]
      constructor
      · rintro (h1 | h1)
        · exact hsub e h1
        · exact h1
      · exact Or.inr
    have hnd2 : (foldIns (keys s._catch_all) infoEndpoints).Nodup :=
      foldIns_nodup _ _ hnd
    have hperm : (foldIns (keys s._catch_all) infoEndpoints).Perm
        infoEndpoints :=
      (List.perm_ext_iff_of_nodup hnd2 (by decide)).mpr hmem
    exact ⟨hnd2, hmem, hperm.length_eq.trans rfl⟩
  · intro t s h
    simp only [get_info] at h ⊢
    exact get_info_loop_lookup_ok t infoEndpoints s (by decide) h

/-- Witness for C3: an all-succeeding transport on a fresh client leaves
exactly seven keys in the aggregate dict. -/
theorem C3_witness :
    (keys ((get_info (okT .null) (init "h" none)).1)._catch_all).length
      = 7 :=
  (C3_get_info_seven_sequential_requests.2.2.2.1 (okT .null) (init "h" none)
    rfl (by simp [init, keys]) (by simp [init, keys])).2.2

/-- Claim C5: `close` on a client constructed with an externally
supplied session never closes that session, whatever operations ran
before; on a client whose session was self-created (ownership recorded
by the call helper) the first `close` releases the open session and any
further `close` releases nothing. -/
theorem C5_close_releases_only_owned_session_once :
    (∀ (ops : List (Op × Http)) (host : String) (sess : Session),
      close (runOps ops (init host (some sess)))
        = (runOps ops (init host (some sess)), false)) ∧
    (∀ (s : State) (sess : Session), s._session = some sess →
      s._close_session = true →
      ((close s).2 = !sess.closed ∧
       (close s).1._session = some { closed := true } ∧
       (close s).1._close_session = true ∧
       (close (close s).1).2 = false ∧
       (close (close s).1).1._session = some { closed := true } ∧
       (close (close s).1).1._close_session = true)) ∧
    (∀ host : String, close (init host none) = (init host none, false)) := by
  refine ⟨?_, ?_, ?_⟩
  · intro ops host sess
    obtain ⟨h1, h2⟩ :=
      runOps_external_session ops (s := init host (some sess)) rfl rfl
    exact close_not_owned h2
  · intro s sess hs hc
    have h1 := close_owned hs hc
    have hs1 : (close s).1._session = some { closed := true } := by rw [h1]
    have hc1 : (close s).1._close_session = true := by
      rw [h1]
      exact hc
    have h2 := close_owned hs1 hc1
    refine ⟨by rw [h1], hs1, hc1, ?_, ?_, ?_⟩
    · rw [h2]
      rfl
    · rw [h2]
    · rw [h2]
      exact hc1
  · intro host
    exact close_no_session rfl

/-- Witness for C5: the session created by the call helper during a
`turn_on` on a fresh client is released by the first `close` and not by
the second. -/
theorem C5_witness :
    (close ((turn_on errT (init "h" none)).1)).2 = true ∧
    (close (close ((turn_on errT (init "h" none)).1)).1).2 = false :=
  have h := C5_close_releases_only_owned_session_once.2.1
    ((turn_on errT (init "h" none)).1) { closed := false } rfl rfl
  ⟨h.1, h.2.2.2.1⟩

/-- Claim C6 counterexample: a `get_info` failing at the third endpoint
raises, yet has already populated the first two keys of `everything` —
the field did not remain unset until the corresponding refresh succeeded
at least once. -/
theorem C6_counterexample :
    (get_info failSettingsT (init "h" none)).2.2 = .error .transport ∧
    keys ((get_info failSettingsT (init "h" none)).1)._catch_all
      = [PUCK, DEVICE_INFO] := by
  constructor <;> rfl

/-- Claim C6 (amended): every cached field is unset at construction and
untouched by operations that do not write it; each successful refresh
overwrites its fields with values derived from the new response only,
never merging with the old value; `deviceDetails`, `buttonAction` and
`temperature` are written only by a succeeding refresh, while
`everything` and `intensity` can already be partially written by a
`get_info`/`get_light` that subsequently fails. -/
theorem C6_amended_cache_lifecycle :
    (∀ (host : String) (sess : Option Session),
      device_details (init host sess) = none ∧
      everything (init host sess) = [] ∧
      button_action (init host sess) = none ∧
      (init host sess)._temperature = none ∧
      (init host sess)._intensity = none ∧
      (init host sess)._hour_of_day = none) ∧
    (∀ (op : Op) (f : CField) (t : Http) (s : State),
      writes op f = false → readCF f (runOp op t s) = readCF f s) ∧
    (∀ (t : Http) (s : State) (resp : Json),
      t (reqG s DEVICE_INFO) = .ok resp →
      ((get_device_info t s).1)._device_details = some resp) ∧
    (∀ (t : Http) (s : State) (resp : Json),
      t (reqG s BUTTON_ACTIONS) = .ok resp →
      ((get_button_action t s).1)._button_action = some resp) ∧
    (∀ (t : Http) (s : State) (resp v : Json),
      t (reqG s TEMPERATURE) = .ok resp →
      resp.get? "temperature" = some v →
      ((get_temperature t s).1)._temperature = some v) ∧
    (∀ (t : Http) (s : State) (resp v w : Json),
      t (reqG s LIGHT) = .ok resp →
      resp.get? "intensity" = some v → resp.get? "state" = some w →
      ((get_light t s).1)._intensity = some v ∧
      ((get_light t s).1)._hour_of_day = some w) ∧
    (∀ (t : Http) (s : State), (get_info t s).2.2 = .ok () →
      ∀ e ∈ infoEndpoints, ∃ resp, t (reqG s e) = .ok resp ∧
        ((get_info t s).1)._catch_all.lookup e = some resp) ∧
    (∀ (t : Http) (s : State) (e : DErr),
      (get_temperature t s).2.2 = .error e →
      ((get_temperature t s).1)._temperature = s._temperature) ∧
    (∀ (t : Http) (s : State) (e : DErr),
      (get_device_info t s).2.2 = .error e →
      ((get_device_info t s).1)._device_details = s._device_details) ∧
    (∀ (t : Http) (s : State) (e : DErr),
      (get_button_action t s).2.2 = .error e →
      ((get_button_action t s).1)._button_action = s._button_action) ∧
    (∀ (t : Http) (s : State) (e : DErr),
      (get_light t s).2.2 = .error e →
      ((get_light t s).1)._hour_of_day = s._hour_of_day) := by
  refine ⟨fun host sess => ⟨rfl, rfl, rfl, rfl, rfl, rfl⟩, runOp_frame,
    ?_, ?_, ?_, ?_, ?_, ?_, ?_, ?_, ?_⟩
  · intro t s resp h
    rw [get_device_info_ok h]
  · intro t s resp h
    rw [get_button_action_ok h]
  · intro t s resp v h hv
    rw [get_temperature_ok h, hv]
  · intro t s resp v w h hv hw
    rw [get_light_ok h, hv, hw]
    exact ⟨rfl, rfl⟩
  · intro t s h
    simp only [get_info] at h ⊢
    exact get_info_loop_lookup_ok t infoEndpoints s (by decide) h
  · intro t s e h
    cases ht : t (reqG s TEMPERATURE) with
    | error u =>
      cases u
      rw [get_temperature_err ht]
      exact (mkSess_cached s).2.2.2.1
    | ok resp =>
      rw [get_temperature_ok ht] at h ⊢
      cases hg : resp.get? "temperature" with
      | none => exact (mkSess_cached s).2.2.2.1
      | some v =>
        rw [hg] at h
        exact absurd h (by simp)
  · intro t s e h
    cases ht : t (reqG s DEVICE_INFO) with
    | error u =>
      cases u
      rw [get_device_info_err ht]
      exact (mkSess_cached s).1
    | ok resp =>
      rw [get_device_info_ok ht] at h
      exact absurd h (by simp)
  · intro t s e h
    cases ht : t (reqG s BUTTON_ACTIONS) with
    | error u =>
      cases u
      rw [get_button_action_err ht]
      exact (mkSess_cached s).2.2.1
    | ok resp =>
      rw [get_button_action_ok ht] at h
      exact absurd h (by simp)
  · intro t s e h
    cases ht : t (reqG s LIGHT) with
    | error u =>
      cases u
      rw [get_light_err ht]
      exact (mkSess_cached s).2.2.2.2.2
    | ok resp =>
      rw [get_light_ok ht] at h ⊢
      cases hg : resp.get? "intensity" with
      | none => exact (mkSess_cached s).2.2.2.2.2
      | some v =>
        cases hw : resp.get? "state" with
        | none => exact (mkSess_cached s).2.2.2.2.2
        | some w =>
          rw [hg, hw] at h
          exact absurd h (by simp)

/-- Witness for C6: a succeeding `get_device_info` on a fresh client
stores the whole body. -/
theorem C6_witness :
    ((get_device_info (okT .null) (init "h" none)).1)._device_details
      = some .null :=
  C6_amended_cache_lifecycle.2.2.1 (okT .null) (init "h" none) .null rfl

/-- Claim C10 counterexample: a `get_light` whose body lacks `"state"`
raises (the refresh never succeeded) yet has already cached the
intensity, so the `intensity` accessor returns a value although no
`get_light` ever succeeded. -/
theorem C10_counterexample :
    (get_light (okT lightNoState) (init "h" none)).2.2 = .error .keyError ∧
    intensity ((get_light (okT lightNoState) (init "h" none)).1) = .ok 5 := by
  constructor
  · rfl
  · have h : ((get_light (okT lightNoState) (init "h" none)).1)._intensity
        = some (.num 5) := rfl
    simp only [intensity, h, pyRound1, Except.ok.injEq]
    norm_num [round1, roundHalfEven]

/-- Claim C10 (amended): reading `temperature` before any successful
`get_temperature` raises a TypeError (rounding applied to the unset
value), and nothing but a succeeding `get_temperature` sets the cached
temperature; reading `intensity` raises while the cached intensity is
unset, and only a `get_light` that got as far as extracting `intensity`
sets it — a `get_light` that then fails at the `state` extraction has
already set it, so the intensity accessor is well-defined from that
write on, not only after a fully successful `get_light`. -/
theorem C10_amended_accessors_partial :
    (∀ s : State, s._temperature = none → temperature s = .error .typeError) ∧
    (∀ s : State, s._intensity = none → intensity s = .error .typeError) ∧
    (∀ (host : String) (sess : Option Session),
      temperature (init host sess) = .error .typeError ∧
      intensity (init host sess) = .error .typeError) ∧
    (∀ (op : Op) (t : Http) (s : State), op ≠ .get_temperature →
      (runOp op t s)._temperature = s._temperature) ∧
    (∀ (t : Http) (s : State) (e : DErr),
      (get_temperature t s).2.2 = .error e →
      ((get_temperature t s).1)._temperature = s._temperature) ∧
    (∀ (op : Op) (t : Http) (s : State), op ≠ .get_light →
      (runOp op t s)._intensity = s._intensity) ∧
    (∀ (t : Http) (s : State), t (reqG s LIGHT) = .error () →
      ((get_light t s).1)._intensity = s._intensity) ∧
    (∀ (t : Http) (s : State) (resp : Json), t (reqG s LIGHT) = .ok resp →
      resp.get? "intensity" = none →
      ((get_light t s).1)._intensity = s._intensity) ∧
    (∀ (t : Http) (s : State) (resp v : Json), t (reqG s LIGHT) = .ok resp →
      resp.get? "intensity" = some v →
      ((get_light t s).1)._intensity = some v) := by
  refine ⟨?_, ?_, fun host sess => ⟨rfl, rfl⟩, ?_, ?_, ?_, ?_, ?_, ?_⟩
  · intro s h
    simp [temperature, pyRound1, h]
  · intro s h
    simp [intensity, pyRound1, h]
  · intro op t s hne
    have hw : writes op CField.temperature = false := by
      cases op <;> first | rfl | exact absurd rfl hne
    have h := runOp_frame op .temperature t s hw
    simpa [readCF] using h
  · intro t s e h
    cases ht : t (reqG s TEMPERATURE) with
    | error u =>
      cases u
      rw [get_temperature_err ht]
      exact (mkSess_cached s).2.2.2.1
    | ok resp =>
      rw [get_temperature_ok ht] at h ⊢
      cases hg : resp.get? "temperature" with
      | none => exact (mkSess_cached s).2.2.2.1
      | some v =>
        rw [hg] at h
        exact absurd h (by simp)
  · intro op t s hne
    have hw : writes op CField.intensity = false := by
      cases op <;> first | rfl | exact absurd rfl hne
    have h := runOp_frame op .intensity t s hw
    simpa [readCF] using h
  · intro t s h
    rw [get_light_err h]
    exact (mkSess_cached s).2.2.2.2.1
  · intro t s resp h hg
    rw [get_light_ok h, hg]
    exact (mkSess_cached s).2.2.2.2.1
  · intro t s resp v h hv
    rw [get_light_ok h, hv]
    cases resp.get? "state" <;> rfl

/-- Witness for C10: on a freshly constructed client the temperature
accessor raises. -/
theorem C10_witness :
    temperature (init "h" none) = .error .typeError :=
  C10_amended_accessors_partial.1 (init "h" none) rfl

end Dingz
